import Mathlib

/-!
Verification of the two transformation cores of the patient-data repository:
`clean_patient_data` (src/1_patient_data_cleaner.py) and
`calculate_dosage` / `calculate_all_dosages` (src/2_med_dosage_calculator.py).

Records are JSON-decoded Python dictionaries; we embed them as association
lists from string keys to JSON values (`PVal`).  Python exceptions raised by
the code (KeyError, AttributeError, TypeError) are embedded with `Except`;
in-place mutation of caller-supplied dictionaries (file 1) is embedded by
returning, next to the result, the post-call state of the input list.
-/

/-- Values that `json.load` can place in a record field: strings, numbers
(JSON numbers, embedded as rationals), booleans, and arrays of strings
(the only array shape occurring in the inputs, e.g. `allergies`). -/
inductive PVal where
  | s (v : String)
  | n (v : ℚ)
  | b (v : Bool)
  | arr (v : List String)
deriving Repr, DecidableEq

/-- A Python dictionary with string keys, as decoded from a JSON object:
an association list in insertion order (Python dicts preserve it). -/
abbrev Dict := List (String × PVal)

/-- Python `d[key]` / `d.get(key)`: the value at the first matching key
(a Python dict holds each key once, so first match is the match). -/
def dictGet? : Dict → String → Option PVal
  | [], _ => none
  | (k, v) :: rest, key => if k = key then some v else dictGet? rest key

/-- Python `d.get(key, default)`. -/
def dictGetD (d : Dict) (key : String) (default : PVal) : PVal :=
  (dictGet? d key).getD default

/-- Python `d[key] = val`: overwrite the existing entry in place, or append
a new entry at the end. -/
def dictSet : Dict → String → PVal → Dict
  | [], key, val => [(key, val)]
  | (k, v) :: rest, key, val =>
    if k = key then (key, val) :: rest else (k, v) :: dictSet rest key val

/-- Python truthiness of a JSON-decoded value (`if x:`): false for `False`,
`0`, the empty string and the empty list, true otherwise. -/
def pyTruthy : PVal → Bool
  | .s v => v ≠ ""
  | .n v => v ≠ 0
  | .b v => v
  | .arr v => v ≠ []

/-- Helper for `str.title`: a character is uppercased when the previous
character was not a (ASCII) letter, and lowercased otherwise; the flag
carries whether the previous character was a letter. -/
def pyTitleAux : List Char → Bool → List Char
  | [], _ => []
  | c :: rest, prevAlpha =>
    (if prevAlpha then c.toLower else c.toUpper) :: pyTitleAux rest c.isAlpha

/-- Python `str.title()` (over the ASCII names occurring here): the first
letter of each maximal run of letters is uppercased, the rest lowercased;
non-letters delimit the runs. -/
def pyTitle (s : String) : String := String.mk (pyTitleAux s.data false)

/-- The Python exceptions the embedded code can raise. -/
inductive PyErr where
  | keyError (key : String)
  | attributeError (msg : String)
  | typeError (msg : String)
deriving Repr, DecidableEq

/-! ## File 1: `clean_patient_data` (src/1_patient_data_cleaner.py)

The loop body (lines 80–101) runs, per record:

* line 83: `patient['name'] = patient['name'].title()` — KeyError when
  `name` is absent; AttributeError when the value is not a string
  (numbers, booleans and lists have no `title` attribute); otherwise the
  caller-supplied dict is mutated in place.
* line 87: `patient['age'] = patient['age'].fillna(0).astype(int)` —
  KeyError when `age` is absent; otherwise AttributeError, because
  `fillna` is a pandas method and no JSON-decoded value (str, number,
  bool, list) has a `fillna` attribute.

So every iteration raises at line 83 or line 87; lines 93–101
(`patient.drop_duplicates()`, the `if patient['age'] > 18` filter and the
append) are unreachable for every record, and the function raises on every
non-empty input.  `processRecord` returns the record's post-mutation state
together with the exception the iteration raises. -/
def processRecord (patient : Dict) : Dict × PyErr :=
  match dictGet? patient "name" with
  | none => (patient, .keyError "name")
  | some (.s v) =>
    let patient1 := dictSet patient "name" (.s (pyTitle v))
    match dictGet? patient1 "age" with
    | none => (patient1, .keyError "age")
    | some _ => (patient1, .attributeError "fillna")
  | some _ => (patient, .attributeError "title")

/-- Embedding of `clean_patient_data` (lines 64–108).  The result is the
Python return value — `none` embeds Python `None` (line 106), `some l` a
returned list — or the exception raised; the second component is the state
of the caller's record list after the call (line 83 mutates records in
place, so a record partially processed before the exception stays
mutated).  On `[]` the loop body never runs, `cleaned_patients` is empty
and line 106 returns `None`; on `p :: rest` the first iteration raises
(see `processRecord`), leaving `p` mutated and the remaining records
untouched. -/
def cleanPatientData : List Dict → Except PyErr (Option (List Dict)) × List Dict
  | [] => (Except.ok none, [])
  | p :: rest =>
    let (p1, e) := processRecord p
    (Except.error e, p1 :: rest)

/-! ## File 2: `calculate_dosage` and `calculate_all_dosages`
(src/2_med_dosage_calculator.py) -/

/-- `DOSAGE_FACTORS` (lines 63–76): the fixed medication → factor table
(mg per kg), in source order. -/
def DOSAGE_FACTORS : List (String × ℚ) :=
  [("epinephrine", 0.01),
   ("amiodarone", 5.00),
   ("lorazepam", 0.05),
   ("fentanyl", 0.001),
   ("lisinopril", 0.5),
   ("metformin", 10.0),
   ("oseltamivir", 2.5),
   ("sumatriptan", 1.0),
   ("albuterol", 0.1),
   ("ibuprofen", 5.0),
   ("sertraline", 1.5),
   ("levothyroxine", 0.02)]

/-- `LOADING_DOSE_MEDICATIONS` (lines 83–87). -/
def LOADING_DOSE_MEDICATIONS : List String :=
  ["amiodarone", "lorazepam", "fentanyl"]

/-- Line 138: `DOSAGE_FACTORS.get(medication, 0)` where
`medication = patient.get('medication')`.  A missing key (`None`) or a
hashable non-string value is simply not in the table, so the default `0`
is returned; a list value is unhashable and `dict.get` raises TypeError. -/
def dosageFactorsGet : Option PVal → Except PyErr ℚ
  | some (.s m) =>
    Except.ok (((DOSAGE_FACTORS.find? fun kv => kv.1 = m).map Prod.snd).getD 0)
  | some (.arr _) => Except.error (.typeError "unhashable type")
  | _ => Except.ok 0

/-- Line 163: `medication in LOADING_DOSE_MEDICATIONS` — membership by
equality, so only a string value can match. -/
def inLoadingDose : Option PVal → Bool
  | some (.s m) => LOADING_DOSE_MEDICATIONS.contains m
  | _ => false

/-- Line 143: `base_dosage = weight * factor` with
`weight = patient.get('weight')`.  A numeric weight multiplies; Python
booleans are integers (`True * f = f`); a missing weight is `None` and
`None * float` raises TypeError, as does `list * float`.  (A string
weight would raise TypeError against the table's float factors; the
string-times-integer-zero repetition corner for unknown medications does
not arise in any record considered here, where weights are numeric.) -/
def weightTimes (patient : Dict) (factor : ℚ) : Except PyErr ℚ :=
  match dictGet? patient "weight" with
  | some (.n w) => Except.ok (w * factor)
  | some (.b v) => Except.ok ((if v then (1 : ℚ) else 0) * factor)
  | _ => Except.error (.typeError "unsupported operand type for *")

/-- Embedding of `calculate_dosage` (lines 108–182).  It extracts `weight`
and `medication` with `.get` (lines 128, 132), looks up the factor with
default 0 (line 138), computes `base_dosage = weight * factor`
(line 143), reads `is_first_dose` with default `False` and tests it by
truthiness (lines 150, 162), doubles exactly when it is the first dose
and the medication is in `LOADING_DOSE_MEDICATIONS` (lines 163–164), and
returns the final dosage as a number (line 182).  The dict-copy at
line 123 is dead: the commented-out writes to it (lines 171–174) were
removed, so nothing is mutated and only the number is returned. -/
def calculate_dosage (patient : Dict) : Except PyErr ℚ :=
  let medication := dictGet? patient "medication"
  match dosageFactorsGet medication with
  | .error e => .error e
  | .ok factor =>
    match weightTimes patient factor with
    | .error e => .error e
    | .ok base =>
      let is_first_dose := pyTruthy (dictGetD patient "is_first_dose" (.b false))
      if is_first_dose && inLoadingDose medication then Except.ok (base * 2)
      else Except.ok base

/-- Lines 219–224: the advisory warnings, keyed by exact medication value. -/
def warningsFor (medication : Option PVal) : List String :=
  if medication = some (.s "epinephrine") then ["Monitor for arrhythmias"]
  else if medication = some (.s "amiodarone") then ["Monitor for hypotension"]
  else if medication = some (.s "fentanyl") then ["Monitor for respiratory depression"]
  else []

/-- The loop body of `calculate_all_dosages` for one record
(lines 198–230): copy the record (line 203), compute
`temp_dosage = calculate_dosage(...)` (line 204), store it under both
`"dosage"` and `"final_dosage"` (lines 205–206), recompute
`base_dosage = weight * factor` from the copy (lines 208–211) and store
it (line 212), attach the warnings list (lines 214–226).  Note no
`loading_dose_applied` key is ever written (the write was commented out
in `calculate_dosage`, lines 171–174, and never moved here).  Returns the
record to append together with `temp_dosage` (added to the running total
at line 238). -/
def calcRecord (patient : Dict) : Except PyErr (Dict × ℚ) :=
  match calculate_dosage patient with
  | .error e => .error e
  | .ok temp =>
    let pwd := dictSet patient "dosage" (.n temp)
    let pwd := dictSet pwd "final_dosage" (.n temp)
    let medication := dictGet? pwd "medication"
    match dosageFactorsGet medication with
    | .error e => .error e
    | .ok factor =>
      match weightTimes pwd factor with
      | .error e => .error e
      | .ok base =>
        let pwd := dictSet pwd "base_dosage" (.n base)
        let pwd := dictSet pwd "warnings" (.arr (warningsFor medication))
        Except.ok (pwd, temp)

/-- Embedding of `calculate_all_dosages` (lines 184–240): processes the
records in input order, appending each augmented record and accumulating
`total_medication` from each record's `temp_dosage`; returns the pair
(list, total).  The running total is folded from the left in the source;
addition of rationals is associative and commutative, so the
right-associated recursion below computes the same total. -/
def calculate_all_dosages : List Dict → Except PyErr (List Dict × ℚ)
  | [] => Except.ok ([], 0)
  | p :: rest =>
    match calcRecord p with
    | .error e => .error e
    | .ok (pwd, temp) =>
      match calculate_all_dosages rest with
      | .error e => .error e
      | .ok (others, subtotal) => Except.ok (pwd :: others, temp + subtotal)

deriving instance DecidableEq for Except

/-! ## Concrete records used to settle the claims -/

/-- The spec's boundary example: a patient aged exactly "18" (spec §8). -/
def rec18 : Dict :=
  [("name", .s "a b"), ("age", .s "18"), ("gender", .s "male"), ("diagnosis", .s "flu")]

/-- The spec's round-trip example patient (spec §8): a valid integer age. -/
def recJohn : Dict :=
  [("name", .s "john smith"), ("age", .s "32"), ("gender", .s "male"),
   ("diagnosis", .s "hypertension")]

/-- A patient record used to exhibit name normalization. -/
def recJane : Dict :=
  [("name", .s "jane DOE"), ("age", .s "40"), ("gender", .s "female"),
   ("diagnosis", .s "flu")]

/-- A patient record used to exhibit in-place mutation of the caller's data. -/
def recMary : Dict :=
  [("name", .s "mary jane"), ("age", .s "30"), ("gender", .s "female"),
   ("diagnosis", .s "asthma")]

/-- A duplicated patient record for the deduplication claim. -/
def recDup : Dict :=
  [("name", .s "bob roe"), ("age", .s "50"), ("gender", .s "male"),
   ("diagnosis", .s "flu")]

/-! ## Concrete dosage requests and their outputs -/

/-- The module docstring's example request (epinephrine, not a first dose). -/
def exEpi : Dict :=
  [("name", .s "John Smith"), ("weight", .n 70), ("medication", .s "epinephrine"),
   ("condition", .s "anaphylaxis"), ("is_first_dose", .b false),
   ("allergies", .arr ["penicillin"])]

/-- The module docstring's loading-dose example (amiodarone, first dose). -/
def exAmi : Dict :=
  [("name", .s "Jane Doe"), ("weight", .n 70), ("medication", .s "amiodarone"),
   ("condition", .s "cardiac arrest"), ("is_first_dose", .b true),
   ("allergies", .arr [])]

/-- A first-dose fentanyl request (a loading-dose medication). -/
def exFen : Dict :=
  [("name", .s "Sam Poe"), ("weight", .n 70), ("medication", .s "fentanyl"),
   ("condition", .s "pain"), ("is_first_dose", .b true),
   ("allergies", .arr [])]

/-- The record `calculate_all_dosages` produces for `exEpi`:
dosage = final_dosage = base_dosage = 70 × 0.01 = 0.7, with the
epinephrine warning — and no `loading_dose_applied` key. -/
def outEpi : Dict :=
  exEpi ++ [("dosage", .n (7/10)), ("final_dosage", .n (7/10)),
            ("base_dosage", .n (7/10)), ("warnings", .arr ["Monitor for arrhythmias"])]

/-- The record `calculate_all_dosages` produces for `exAmi`:
base = 70 × 5 = 350, doubled to 700 by the loading dose. -/
def outAmi : Dict :=
  exAmi ++ [("dosage", .n 700), ("final_dosage", .n 700),
            ("base_dosage", .n 350), ("warnings", .arr ["Monitor for hypotension"])]

/-- The record `calculate_all_dosages` produces for `exFen`:
base = 70 × 0.001 = 0.07, doubled to 0.14 by the loading dose. -/
def outFen : Dict :=
  exFen ++ [("dosage", .n (7/50)), ("final_dosage", .n (7/50)),
            ("base_dosage", .n (7/100)),
            ("warnings", .arr ["Monitor for respiratory depression"])]

/-- Transcription of the claimed dosage formula (spec §4.3, claim C5):
the factor is the medication's entry in the fixed table, defaulting to 0
for an unknown medication; the base dosage is weight × factor; the result
is doubled exactly when it is a first dose of a loading-dose medication. -/
def specDosage (w : ℚ) (m : String) (first : Bool) : ℚ :=
  let factor := ((DOSAGE_FACTORS.find? fun kv => kv.1 = m).map Prod.snd).getD 0
  let base := w * factor
  if first ∧ m ∈ LOADING_DOSE_MEDICATIONS then base * 2 else base

/-- The number a record stores under `"final_dosage"` (0 when the key is
absent or not numeric; every record the calculator returns has it). -/
def finalDosageOf (d : Dict) : ℚ :=
  match dictGet? d "final_dosage" with
  | some (.n q) => q
  | _ => 0

/-! ## Dictionary lemmas -/

theorem dictGet?_dictSet_self (d : Dict) (k : String) (v : PVal) :
    dictGet? (dictSet d k v) k = some v := by
  induction d with
  | nil => simp [dictGet?, dictSet]
  | cons kv rest ih =>
    obtain ⟨k1, v1⟩ := kv
    by_cases h : k1 = k <;> simp [dictGet?, dictSet, h, ih]

theorem dictGet?_dictSet_ne (d : Dict) (k k' : String) (v : PVal) (h : k' ≠ k) :
    dictGet? (dictSet d k v) k' = dictGet? d k' := by
  induction d with
  | nil => simp [dictGet?, dictSet, Ne.symm h]
  | cons kv rest ih =>
    obtain ⟨k1, v1⟩ := kv
    by_cases h1 : k1 = k
    · subst h1
      simp [dictGet?, dictSet, h, Ne.symm h]
    · simp only [dictSet, if_neg h1]
      by_cases h2 : k1 = k' <;> simp [dictGet?, h2, ih]

/-! ## Claims about `clean_patient_data` -/

/-- C1: the claim says a record whose normalized age is exactly 18 is
retained.  On the spec's own boundary example the code instead raises
`AttributeError` at line 87 (`patient['age'].fillna(0)`: a JSON string
has no `fillna` attribute), so nothing is ever retained; moreover the
filter at line 98 compares with strict `>` (`patient['age'] > 18`), which
would exclude an exactly-18 record even if the age had been parsed. -/
theorem c1_boundary_record_raises :
    (cleanPatientData [rec18]).1 = Except.error (PyErr.attributeError "fillna") := by
  decide

/-- C2: the claim says a valid integer age string is parsed to that
integer and an invalid one is coerced to 0, with no failure.  The code
raises `AttributeError` at line 87 on every record — the age value of
`recJohn` is the perfectly valid string "32", yet processing fails
instead of yielding age 32. -/
theorem c2_valid_age_raises :
    (cleanPatientData [recJohn]).1 = Except.error (PyErr.attributeError "fillna") := by
  decide

/-- C3: the claim says duplicate records are dropped with the first
occurrence kept.  On an input with two identical records the code raises
`AttributeError` at line 87 before reaching the line 93
`patient.drop_duplicates()` call (itself a pandas method absent on a
dict, and applied per record, where it could never remove cross-record
duplicates); no deduplicated output is ever produced. -/
theorem c3_duplicates_raise :
    (cleanPatientData [recDup, recDup]).1 = Except.error (PyErr.attributeError "fillna") := by
  decide

/-- C4 counterexample: on the empty input list the function returns
Python `None` (line 106), not the empty list the claim promises, so a
caller checking length alone would fail with a `TypeError` on `len(None)`. -/
theorem c4_empty_input_counterexample :
    (cleanPatientData []).1 = Except.ok none ∧
    (cleanPatientData []).1 ≠ Except.ok (some []) := by
  decide

/-- C4 amended: when the input list is empty, `clean_patient_data`
returns the distinguished no-data value `None` rather than an empty
sequence, so callers must check for `None` (as `main` does at line 133);
a non-empty input never reaches this return because age normalization
raises first. -/
theorem c4_amended_empty_returns_none :
    cleanPatientData [] = (Except.ok none, []) := by
  decide

/-- C9: the claim says every retained record carries the title-cased
name.  No record is ever retained: on a record with name "jane DOE" the
code mutates the name to "Jane Doe" (line 83) and then raises
`AttributeError` at line 87, so the title-cased name is never part of any
output — it survives only as a side effect on the caller's record. -/
theorem c9_no_record_retained :
    cleanPatientData [recJane] =
      (Except.error (PyErr.attributeError "fillna"),
       [[("name", PVal.s "Jane Doe"), ("age", PVal.s "40"), ("gender", PVal.s "female"),
         ("diagnosis", PVal.s "flu")]]) := by
  decide

/-- C8 counterexample: `clean_patient_data` is not pure — after the call
on `[recMary]` the caller's record list is no longer `[recMary]` (the
record's name was overwritten in place at line 83 before the exception). -/
theorem c8_mutation_counterexample :
    (cleanPatientData [recMary]).2 ≠ [recMary] := by
  decide

/-- C8 amended: `clean_patient_data` mutates caller-supplied records in
place: for any first record with a string name and an age field, after
the call the caller's first record carries the title-cased name (written
at line 83 before line 87 raises), and the remaining records are
untouched. -/
theorem c8_amended_first_record_name_mutated (p : Dict) (rest : List Dict) (v : String)
    (hname : dictGet? p "name" = some (PVal.s v))
    (hage : (dictGet? p "age").isSome = true) :
    (cleanPatientData (p :: rest)).2 = dictSet p "name" (PVal.s (pyTitle v)) :: rest := by
  obtain ⟨a, ha⟩ := Option.isSome_iff_exists.mp hage
  have hage1 : dictGet? (dictSet p "name" (PVal.s (pyTitle v))) "age" = some a := by
    rw [dictGet?_dictSet_ne p "name" "age" _ (by decide)]
    exact ha
  simp [cleanPatientData, processRecord, hname, hage1]

/-- Witness for the amended C8 statement at a concrete record. -/
theorem c8_amended_witness :
    (cleanPatientData [recMary]).2 = dictSet recMary "name" (PVal.s (pyTitle "mary jane")) :: [] :=
  c8_amended_first_record_name_mutated recMary [] "mary jane" (by decide) (by decide)

/-! ## Claims about the dosage calculator -/

/-- C5: for every request with a numeric weight, a string medication and
a boolean `is_first_dose` field (absent meaning `False`),
`calculate_dosage` returns exactly the claimed formula: weight × factor
(factor 0 when the medication is unknown to the table), doubled exactly
when `is_first_dose` holds and the medication is in the loading-dose set. -/
theorem c5_calculate_dosage_meets_spec (p : Dict) (w : ℚ) (m : String) (first : Bool)
    (hw : dictGet? p "weight" = some (PVal.n w))
    (hm : dictGet? p "medication" = some (PVal.s m))
    (hf : dictGetD p "is_first_dose" (PVal.b false) = PVal.b first) :
    calculate_dosage p = Except.ok (specDosage w m first) := by
  simp only [calculate_dosage, dosageFactorsGet, weightTimes, hm, hw, hf, pyTruthy,
    inLoadingDose, specDosage]
  by_cases h1 : first <;> by_cases h2 : m ∈ LOADING_DOSE_MEDICATIONS <;>
    simp [h1, h2]

/-- Witness for C5 at the docstring's epinephrine example: 0.7 mg. -/
theorem c5_witness : calculate_dosage exEpi = Except.ok (specDosage 70 "epinephrine" false) :=
  c5_calculate_dosage_meets_spec exEpi 70 "epinephrine" false rfl rfl rfl

/-- The loop body of `calculate_all_dosages` stores `temp_dosage` under
both `"dosage"` and `"final_dosage"` of the appended record, and never
writes a `"loading_dose_applied"` key (lines 205–206, 212, 226: only
`dosage`, `final_dosage`, `base_dosage` and `warnings` are written). -/
theorem calcRecord_keys (p pwd : Dict) (temp : ℚ)
    (h : calcRecord p = Except.ok (pwd, temp)) :
    dictGet? pwd "final_dosage" = some (PVal.n temp) ∧
    dictGet? pwd "dosage" = some (PVal.n temp) ∧
    dictGet? pwd "loading_dose_applied" = dictGet? p "loading_dose_applied" := by
  simp only [calcRecord] at h
  split at h
  · cases h
  · split at h
    · cases h
    · split at h
      · cases h
      · simp only [Except.ok.injEq, Prod.mk.injEq] at h
        obtain ⟨h1, h2⟩ := h
        subst h1
        subst h2
        refine ⟨?_, ?_, ?_⟩
        · rw [dictGet?_dictSet_ne _ _ _ _ (by decide),
            dictGet?_dictSet_ne _ _ _ _ (by decide), dictGet?_dictSet_self]
        · rw [dictGet?_dictSet_ne _ _ _ _ (by decide),
            dictGet?_dictSet_ne _ _ _ _ (by decide),
            dictGet?_dictSet_ne _ _ _ _ (by decide), dictGet?_dictSet_self]
        · rw [dictGet?_dictSet_ne _ _ _ _ (by decide),
            dictGet?_dictSet_ne _ _ _ _ (by decide),
            dictGet?_dictSet_ne _ _ _ _ (by decide),
            dictGet?_dictSet_ne _ _ _ _ (by decide)]

/-- C6: whenever `calculate_all_dosages` returns, the returned total is
the sum of the `final_dosage` values of the returned records, taken in
their (input) order, and the empty input yields the empty list and
total 0. -/
theorem c6_total_is_sum_of_final_dosages :
    (∀ ps out total, calculate_all_dosages ps = Except.ok (out, total) →
      total = (out.map finalDosageOf).sum) ∧
    calculate_all_dosages [] = Except.ok ([], 0) := by
  refine ⟨?_, rfl⟩
  intro ps
  induction ps with
  | nil =>
    intro out total h
    simp only [calculate_all_dosages, Except.ok.injEq, Prod.mk.injEq] at h
    obtain ⟨h1, h2⟩ := h
    subst h1
    subst h2
    simp
  | cons p rest ih =>
    intro out total h
    cases hc : calcRecord p with
    | error e => simp [calculate_all_dosages, hc] at h
    | ok pr =>
      obtain ⟨pwd, temp⟩ := pr
      cases hr : calculate_all_dosages rest with
      | error e => simp [calculate_all_dosages, hc, hr] at h
      | ok pr2 =>
        obtain ⟨others, subtotal⟩ := pr2
        simp only [calculate_all_dosages, hc, hr, Except.ok.injEq, Prod.mk.injEq] at h
        obtain ⟨h1, h2⟩ := h
        subst h1
        subst h2
        have hk := calcRecord_keys p pwd temp hc
        have ihs := ih others subtotal hr
        simp [finalDosageOf, hk.1, ihs]

/-- Witness for C6 at the amiodarone loading-dose example: total 700. -/
theorem c6_witness : (700 : ℚ) = ([outAmi].map finalDosageOf).sum :=
  c6_total_is_sum_of_final_dosages.1 [exAmi] [outAmi] 700 (by
    simp [calculate_all_dosages, calcRecord, calculate_dosage, dosageFactorsGet,
      weightTimes, dictGet?, dictGetD, dictSet, pyTruthy, inLoadingDose, warningsFor,
      exAmi, outAmi, DOSAGE_FACTORS, LOADING_DOSE_MEDICATIONS, List.find?]
    norm_num)

/-- C10: every record returned by `calculate_all_dosages` carries a
`"dosage"` key whose value equals the record's `"final_dosage"` value
(both are set to `temp_dosage` at lines 205–206). -/
theorem c10_dosage_key_mirrors_final_dosage (ps out : List Dict) (total : ℚ)
    (h : calculate_all_dosages ps = Except.ok (out, total)) :
    ∀ d ∈ out, ∃ q, dictGet? d "dosage" = some (PVal.n q) ∧
      dictGet? d "final_dosage" = some (PVal.n q) := by
  induction ps generalizing out total with
  | nil =>
    simp only [calculate_all_dosages, Except.ok.injEq, Prod.mk.injEq] at h
    obtain ⟨h1, h2⟩ := h
    subst h1
    simp
  | cons p rest ih =>
    cases hc : calcRecord p with
    | error e => simp [calculate_all_dosages, hc] at h
    | ok pr =>
      obtain ⟨pwd, temp⟩ := pr
      cases hr : calculate_all_dosages rest with
      | error e => simp [calculate_all_dosages, hc, hr] at h
      | ok pr2 =>
        obtain ⟨others, subtotal⟩ := pr2
        simp only [calculate_all_dosages, hc, hr, Except.ok.injEq, Prod.mk.injEq] at h
        obtain ⟨h1, h2⟩ := h
        subst h1
        intro d hd
        rcases List.mem_cons.mp hd with rfl | hmem
        · exact ⟨temp, (calcRecord_keys p d temp hc).2.1, (calcRecord_keys p d temp hc).1⟩
        · exact ih others subtotal hr d hmem

/-- Witness for C10 at the fentanyl loading-dose example. -/
theorem c10_witness :
    ∃ q, dictGet? outFen "dosage" = some (PVal.n q) ∧
      dictGet? outFen "final_dosage" = some (PVal.n q) :=
  c10_dosage_key_mirrors_final_dosage [exFen] [outFen] (7/50) (by
    simp [calculate_all_dosages, calcRecord, calculate_dosage, dosageFactorsGet,
      weightTimes, dictGet?, dictGetD, dictSet, pyTruthy, inLoadingDose, warningsFor,
      exFen, outFen, DOSAGE_FACTORS, LOADING_DOSE_MEDICATIONS, List.find?]
    norm_num) outFen (by simp)

/-- C7: the claim says every returned record carries, among others, a
`loading_dose_applied` boolean.  On the module docstring's own example
request (whose documented output shows `"loading_dose_applied": false`)
the record returned by `calculate_all_dosages` has no
`loading_dose_applied` key at all: the write was commented out in
`calculate_dosage` (lines 171–174) and never added to the loop, so only
`dosage`, `final_dosage`, `base_dosage` and `warnings` are added. -/
theorem c7_loading_dose_applied_key_missing :
    calculate_all_dosages [exEpi] = Except.ok ([outEpi], 7/10) ∧
    dictGet? outEpi "loading_dose_applied" = none := by
  constructor
  · simp [calculate_all_dosages, calcRecord, calculate_dosage, dosageFactorsGet,
      weightTimes, dictGet?, dictGetD, dictSet, pyTruthy, inLoadingDose, warningsFor,
      exEpi, outEpi, DOSAGE_FACTORS, LOADING_DOSE_MEDICATIONS, List.find?]
    norm_num
  · decide
